import Mathlib

/-!
Verification of the WorldForgeAI frontend's world-model store.

The repository is a React client (`frontend/src`).  The aggregate world
state lives in `AppLayout.jsx` as the `worldData` React state, mutated
only through the `handleDataGenerated(dataType, data)` updater; the
capability state is the `isLLMInitialized` / `initializedProviderKey`
pair set by `handleLLMInitialized`.  Producer views (CultureTab,
CharactersTab, SimulateTab, ChatTab, ...) read `worldData`, compute
readiness predicates from it, and call `handleDataGenerated` with the
result of a successful generation call.

This file shallowly embeds that code.  JavaScript objects that are used
as mappings are embedded as association lists `List (String × α)` whose
update operations mirror the object-spread semantics used by the source
(`{ ...prev, ...data }`); record values are opaque (the type parameter
`α`).  JavaScript's `localeCompare`-based sort and `String.trim` are
modelled by executable code-point-order and whitespace-strip functions.
-/

namespace WorldForge

/-- Lookup of a key in a JS-object-as-association-list: the value of the
first entry carrying the key (JS objects hold each key once). -/
def objFind (o : List (String × α)) (k : String) : Option α :=
  (o.find? (fun p => p.1 = k)).map Prod.snd

/-- The keys of a JS object, in entry order. -/
def objKeys (o : List (String × α)) : List String :=
  o.map Prod.fst

/-- Setting one key of a JS object: overwrite in place if the key is
present, append otherwise (JS property-creation order). -/
def objInsert (o : List (String × α)) (k : String) (v : α) : List (String × α) :=
  if o.any (fun p => p.1 = k) then
    o.map (fun p => if p.1 = k then (k, v) else p)
  else
    o ++ [(k, v)]

/-- Object spread `{ ...a, ...b }`: every entry of `b` is set into `a`
in order, so a key of `b` overwrites the same key of `a` (last write
wins) and fresh keys are appended. -/
def objSpread (a b : List (String × α)) : List (String × α) :=
  b.foldl (fun acc p => objInsert acc p.1 p.2) a

/-- A generation result handed to the store: either a mapping (the JS
object payloads of the singleton and keyed branches) or an opaque
non-mapping record (the interaction / chat-message payloads). -/
inductive GenData (α : Type) where
  | obj : List (String × α) → GenData α
  | record : α → GenData α
deriving DecidableEq

/-- The entries contributed when the payload is object-spread
(`{ ...prev, ...data }`): a mapping contributes its entries, an opaque
record contributes none. -/
def GenData.toSpread : GenData α → List (String × α)
  | .obj o => o
  | .record _ => []

/-- `Object.keys(x).length > 0`, the emptiness test every view applies
to a singleton section; a non-mapping value has no enumerable keys. -/
def GenData.isNonEmptyObj : GenData α → Bool
  | .obj o => !o.isEmpty
  | .record _ => false

/-- The `worldData` state of `AppLayout.jsx`: two singleton sections,
five keyed sections, two ordered sections.  Singleton sections are held
as whatever payload was last assigned (the code assigns `data`
wholesale); keyed sections are always mappings (their branches always
produce a spread object); ordered sections are lists of payloads. -/
structure WorldData (α : Type) where
  physical_world : GenData α
  culture : GenData α
  factions : List (String × α)
  characters : List (String × α)
  locations : List (String × α)
  artifacts : List (String × α)
  events : List (String × α)
  interactions : List (GenData α)
  chat_history : List (GenData α)
deriving DecidableEq

/-- The initial `worldData` value of `AppLayout.jsx` (all sections
empty). -/
def initialWorldData : WorldData α :=
  { physical_world := .obj []
    culture := .obj []
    factions := []
    characters := []
    locations := []
    artifacts := []
    events := []
    interactions := []
    chat_history := [] }

/-- The `dataType` tags accepted by `handleDataGenerated`. -/
inductive DataType where
  | physical_world
  | culture
  | factions
  | characters
  | locations
  | artifacts
  | events
  | interaction_result
  | chat_message
deriving DecidableEq

/-- `handleDataGenerated(dataType, data)` from `AppLayout.jsx`: the
singleton branches assign `data` wholesale, the keyed branches compute
`{ ...prev, ...data }`, the interaction branch prepends
(`[data, ...prev]`) and the chat branch appends (`[...prev, data]`). -/
def handleDataGenerated (dataType : DataType) (data : GenData α)
    (prevData : WorldData α) : WorldData α :=
  match dataType with
  | .physical_world => { prevData with physical_world := data }
  | .culture => { prevData with culture := data }
  | .factions =>
      { prevData with factions := objSpread prevData.factions data.toSpread }
  | .characters =>
      { prevData with characters := objSpread prevData.characters data.toSpread }
  | .locations =>
      { prevData with locations := objSpread prevData.locations data.toSpread }
  | .artifacts =>
      { prevData with artifacts := objSpread prevData.artifacts data.toSpread }
  | .events =>
      { prevData with events := objSpread prevData.events data.toSpread }
  | .interaction_result =>
      { prevData with interactions := data :: prevData.interactions }
  | .chat_message =>
      { prevData with chat_history := prevData.chat_history ++ [data] }

/-- The centralized `AppLayout` state relevant to the store claims:
the world data, the capability pair set by `handleLLMInitialized`, and
the layout-level error string. -/
structure AppState (α : Type) where
  worldData : WorldData α
  isLLMInitialized : Bool
  initializedProviderKey : String
  layoutError : String
deriving DecidableEq

/-- The initial `AppLayout` state. -/
def initialAppState : AppState α :=
  { worldData := initialWorldData
    isLLMInitialized := false
    initializedProviderKey := ""
    layoutError := "" }

/-- `handleLLMInitialized(providerKey)` from `AppLayout.jsx`. -/
def handleLLMInitialized (providerKey : String) (s : AppState α) : AppState α :=
  { s with isLLMInitialized := true
           initializedProviderKey := providerKey
           layoutError := "" }

/-- `handleDataGenerated` at the `AppLayout` level: it updates
`worldData` through the functional updater and clears `layoutError`,
touching nothing else. -/
def appHandleDataGenerated (dataType : DataType) (data : GenData α)
    (s : AppState α) : AppState α :=
  { s with worldData := handleDataGenerated dataType data s.worldData
           layoutError := "" }

/-- A sequence of completed generation results applied to the store in
completion order. -/
def applyOps (ops : List (DataType × GenData α)) (w : WorldData α) : WorldData α :=
  ops.foldl (fun acc op => handleDataGenerated op.1 op.2 acc) w

/-- The nine sections of `worldData`. -/
inductive Section where
  | physical_world
  | culture
  | factions
  | characters
  | locations
  | artifacts
  | events
  | interactions
  | chat_history
deriving DecidableEq

/-- The content of one section, tagged by its shape. -/
inductive SectionContent (α : Type) where
  | single : GenData α → SectionContent α
  | keyed : List (String × α) → SectionContent α
  | ordered : List (GenData α) → SectionContent α
deriving DecidableEq

/-- Read one section out of the world data. -/
def getSection (w : WorldData α) : Section → SectionContent α
  | .physical_world => .single w.physical_world
  | .culture => .single w.culture
  | .factions => .keyed w.factions
  | .characters => .keyed w.characters
  | .locations => .keyed w.locations
  | .artifacts => .keyed w.artifacts
  | .events => .keyed w.events
  | .interactions => .ordered w.interactions
  | .chat_history => .ordered w.chat_history

/-- The section written by each `dataType` branch of
`handleDataGenerated`. -/
def sectionOf : DataType → Section
  | .physical_world => .physical_world
  | .culture => .culture
  | .factions => .factions
  | .characters => .characters
  | .locations => .locations
  | .artifacts => .artifacts
  | .events => .events
  | .interaction_result => .interactions
  | .chat_message => .chat_history

/-- The singleton sections. -/
inductive SingletonSection where
  | physical_world
  | culture
deriving DecidableEq

/-- The `dataType` that targets a singleton section. -/
def singletonDataType : SingletonSection → DataType
  | .physical_world => .physical_world
  | .culture => .culture

/-- Read a singleton section. -/
def getSingleton (w : WorldData α) : SingletonSection → GenData α
  | .physical_world => w.physical_world
  | .culture => w.culture

/-- The keyed sections. -/
inductive KeyedSection where
  | factions
  | characters
  | locations
  | artifacts
  | events
deriving DecidableEq

/-- The `dataType` that targets a keyed section. -/
def keyedDataType : KeyedSection → DataType
  | .factions => .factions
  | .characters => .characters
  | .locations => .locations
  | .artifacts => .artifacts
  | .events => .events

/-- Read a keyed section. -/
def getKeyed (w : WorldData α) : KeyedSection → List (String × α)
  | .factions => w.factions
  | .characters => w.characters
  | .locations => w.locations
  | .artifacts => w.artifacts
  | .events => w.events

/-- The emptiness test the views apply to a section: `Object.keys(x)
.length > 0` for the mapping sections, `length > 0` for the ordered
ones.  `populated` is its truth, `empty` its falsity. -/
def SectionContent.populated : SectionContent α → Bool
  | .single g => g.isNonEmptyObj
  | .keyed o => !o.isEmpty
  | .ordered l => !l.isEmpty

/-! ### The name index and view-local predicates

`CharactersTab.jsx`, `LocationsTab.jsx`, `ArtifactsTab.jsx` and
`SimulateTab.jsx` all derive the entity dropdown options identically:
push `Object.keys` of `factions`, `characters`, `locations`,
`artifacts` and `events`, sort with `(a, b) => a.localeCompare(b)`, and
prepend the literal sentinel option `'None'`.  `localeCompare`'s
ascending order is modelled as code-point lexicographic order on the
strings. -/

/-- Code-point lexicographic order on character lists. -/
def lexLe : List Char → List Char → Bool
  | [], _ => true
  | _ :: _, [] => false
  | a :: as, b :: bs =>
    if a.toNat < b.toNat then true
    else if b.toNat < a.toNat then false
    else lexLe as bs

/-- The ascending string order produced by the views'
`localeCompare` sort comparator, modelled on code points. -/
def jsLe (a b : String) : Prop := lexLe a.data b.data = true

instance : DecidableRel jsLe := fun _ _ => inferInstanceAs (Decidable (_ = true))

/-- JavaScript `String.prototype.trim()`: strip leading and trailing
whitespace. -/
def jsTrim (s : String) : String :=
  ⟨((s.data.dropWhile Char.isWhitespace).reverse.dropWhile Char.isWhitespace).reverse⟩

/-- The `names` array built by the entity-options effect: the keys of
the five keyed sections, concatenated in the source's push order. -/
def allNames (w : WorldData α) : List String :=
  objKeys w.factions ++ objKeys w.characters ++ objKeys w.locations ++
    objKeys w.artifacts ++ objKeys w.events

/-- The `entityOptions` each view derives: `['None', ...names.sort(
(a, b) => a.localeCompare(b))]`.  JS `sort` is stable ascending; under
the total order `jsLe` the stable sort is `List.insertionSort`. -/
def entityOptions (w : WorldData α) : List String :=
  "None" :: List.insertionSort jsLe (allNames w)

/-- `prerequisitesMet` of `ChatTab.jsx`: world seed and culture
non-empty. -/
def chatPrerequisitesMet (w : WorldData α) : Bool :=
  w.physical_world.isNonEmptyObj && w.culture.isNonEmptyObj

/-- `prerequisitesMet` of `SimulateTab.jsx`: world seed, culture,
factions, characters and locations non-empty. -/
def simulatePrerequisitesMet (w : WorldData α) : Bool :=
  w.physical_world.isNonEmptyObj && w.culture.isNonEmptyObj &&
    !w.factions.isEmpty && !w.characters.isEmpty && !w.locations.isEmpty

/-- `worldSeedGenerated` of `CultureTab.jsx`: the readiness predicate
for culture generation, computed from `worldData` alone. -/
def cultureWorldSeedGenerated (w : WorldData α) : Bool :=
  w.physical_world.isNonEmptyObj

/-- The guard sequence of `CultureTab.handleSubmit`: refuse while the
LLM is uninitialized, then while the world seed is missing, then while
the input is blank; otherwise the generation call is issued. -/
def cultureSubmitAccepted (isLLMInitialized : Bool) (w : WorldData α)
    (societalStructure : String) : Bool :=
  if !isLLMInitialized then false
  else if !cultureWorldSeedGenerated w then false
  else if jsTrim societalStructure = "" then false
  else true

/-- The guard sequence of `SimulateTab.handleSubmit`: LLM initialized,
`prerequisitesMet`, both entities selected (not `'None'`), the two
selections different, and type and setting non-blank. -/
def simulateSubmitAccepted (isLLMInitialized : Bool) (w : WorldData α)
    (entity1Selection entity2Selection interactionType settingSelection : String) :
    Bool :=
  if !isLLMInitialized then false
  else if !simulatePrerequisitesMet w then false
  else if entity1Selection = "None" || entity2Selection = "None" then false
  else if entity1Selection = entity2Selection then false
  else if jsTrim interactionType = "" || jsTrim settingSelection = "" then false
  else true

/-! ### Producer-view submission handlers -/

/-- The outcome of an awaited generation call in a view's try/catch. -/
inductive GenCallResult (α : Type) where
  | ok (data : GenData α)
  | error (message : String)
deriving DecidableEq

/-- The shared try/catch shape of every non-chat producer view's
`handleSubmit` (WorldSeedTab, CultureTab, FactionsTab, CharactersTab,
LocationsTab, ArtifactsTab, EventsTab, SimulateTab): on success hand the
result to `handleDataGenerated` for the view's `dataType`; in the catch
branch only set the view-local `errorMessage`, leaving the world data
alone.  Returns the world data and the view-local error. -/
def tabHandleSubmit (dataType : DataType) (w : WorldData α)
    (result : GenCallResult α) : WorldData α × Option String :=
  match result with
  | .ok data => (handleDataGenerated dataType data w, none)
  | .error message => (w, some message)

/-- A chat-history entry as built by `ChatTab.handleSubmit`
(`{ sender, text, timestamp }`, plus `isError: true` on the error
entry; the absent `isError` field of ordinary entries is the falsy
`false`). -/
structure ChatMessage where
  sender : String
  text : String
  timestamp : String
  isError : Bool
deriving DecidableEq

/-- The settled state of the awaited `sendChatMessage` call:
rejection, a falsy resolved value, a resolved object without a
`response` field, or a resolved object with one. -/
inductive ChatCallResult where
  | rejected (message : String)
  | resolvedNull
  | resolvedNoResponse
  | resolvedWith (response : String)
deriving DecidableEq

/-- `ChatTab.handleSubmit`, over world data holding `ChatMessage`
records.  Guards first (empty message keeps the previous local error;
uninitialized LLM and missing prerequisites set one); past the guards
the trimmed user message is appended to `chat_history` BEFORE the call,
then the branch on the call's outcome appends the AI entry: the
response on success, an apology entry (plus a local error) on a
response-less object, nothing on a falsy result, and an error-flagged
entry (plus the local error `error.message` with its `||` fallbacks) on
rejection.  Each appended entry carries the current timestamp `now`.
Returns the world data and the view-local `errorMessage`. -/
def chatHandleSubmit (isLLMInitialized : Bool) (w : WorldData ChatMessage)
    (message : String) (prevError : String) (result : ChatCallResult)
    (now : String) : WorldData ChatMessage × String :=
  if jsTrim message = "" then (w, prevError)
  else if !isLLMInitialized then
    (w, "LLM provider not initialized. Go to Settings and apply settings first.")
  else if !chatPrerequisitesMet w then
    (w, "Some world data is required first (Tabs 1 and 2).")
  else
    let userMessage := jsTrim message
    let w1 := handleDataGenerated .chat_message
      (.record ⟨"user", userMessage, now, false⟩) w
    match result with
    | .resolvedWith response =>
        (handleDataGenerated .chat_message
          (.record ⟨"ai", response, now, false⟩) w1, "")
    | .resolvedNoResponse =>
        (handleDataGenerated .chat_message
          (.record ⟨"ai", "Sorry, I could not process that message.", now, false⟩) w1,
         "Received unexpected response from AI.")
    | .resolvedNull => (w1, "")
    | .rejected message =>
        (handleDataGenerated .chat_message
          (.record ⟨"ai",
            "Error: " ++ (if message = "" then "An error occurred." else message),
            now, true⟩) w1,
         if message = "" then "An error occurred during chat." else message)

/-! ### Request payloads carrying an associated-entity selector -/

/-- The `inputData` built by `CharactersTab.handleSubmit`. -/
structure CharacterInputData where
  name : String
  role : String
  ethnicity : String
  faction : Option String
  quirk : Option String
deriving DecidableEq

/-- `CharactersTab.handleSubmit`'s `inputData`: the associated-entity
selection is sent in the `faction` field, `null` exactly on the
`'None'` sentinel; the quirk is `null` when blank. -/
def charactersInputData (characterName characterRole ethnicity
    entitySelection characterQuirk : String) : CharacterInputData :=
  { name := characterName
    role := characterRole
    ethnicity := ethnicity
    faction := if entitySelection ≠ "None" then some entitySelection else none
    quirk := if jsTrim characterQuirk ≠ "" then some (jsTrim characterQuirk) else none }

/-- The `inputData` built by `LocationsTab.handleSubmit`. -/
structure LocationInputData where
  name : String
  type : String
  features : String
  description : String
  associated_entity : Option String
deriving DecidableEq

/-- `LocationsTab.handleSubmit`'s `inputData`: `associated_entity` is
`null` exactly on the `'None'` sentinel. -/
def locationsInputData (locationName locationType keyFeatures description
    entitySelection : String) : LocationInputData :=
  { name := locationName
    type := locationType
    features := keyFeatures
    description := description
    associated_entity := if entitySelection ≠ "None" then some entitySelection else none }

/-- The `inputData` built by `ArtifactsTab.handleSubmit`. -/
structure ArtifactInputData where
  name : String
  type : String
  properties : String
  associated_entity : Option String
deriving DecidableEq

/-- `ArtifactsTab.handleSubmit`'s `inputData`: `associated_entity` is
`null` exactly on the `'None'` sentinel. -/
def artifactsInputData (artifactName artifactType properties
    entitySelection : String) : ArtifactInputData :=
  { name := artifactName
    type := artifactType
    properties := properties
    associated_entity := if entitySelection ≠ "None" then some entitySelection else none }

/-! ### Lemmas about the JS-object operations -/

theorem objFind_nil (k : String) : objFind ([] : List (String × α)) k = none := rfl

theorem objFind_cons (p : String × α) (o : List (String × α)) (k : String) :
    objFind (p :: o) k = if p.1 = k then some p.2 else objFind o k := by
  by_cases h : p.1 = k
  · simp [objFind, List.find?_cons_of_pos, h]
  · simp [objFind, List.find?_cons_of_neg, h]

theorem objFind_eq_none_of_not_any (o : List (String × α)) (k : String)
    (h : o.any (fun p => p.1 = k) = false) : objFind o k = none := by
  induction o with
  | nil => rfl
  | cons p o ih =>
    simp only [List.any_cons, Bool.or_eq_false_iff] at h
    rw [objFind_cons, if_neg (by simpa using h.1), ih h.2]

theorem objFind_map_overwrite (o : List (String × α)) (k : String) (v : α)
    (k' : String) :
    objFind (o.map (fun p => if p.1 = k then (k, v) else p)) k' =
      if k' = k then (if o.any (fun p => p.1 = k) then some v else none)
      else objFind o k' := by
  induction o with
  | nil => simp [objFind]
  | cons p o ih =>
    by_cases hp : p.1 = k
    · simp only [List.map_cons, if_pos hp, objFind_cons, List.any_cons]
      by_cases hk : k' = k
      · subst hk
        simp [hp]
      · rw [if_neg (show ¬((k, v).1 = k') by simpa using Ne.symm hk),
          if_neg (show ¬(p.1 = k') from fun h => hk ((hp ▸ h).symm)), ih,
          if_neg hk, if_neg hk]
    · simp only [List.map_cons, if_neg hp, objFind_cons, List.any_cons]
      by_cases hpk : p.1 = k'
      · have hk : ¬ k' = k := fun h => hp (h ▸ hpk)
        simp [hpk, hk]
      · rw [if_neg hpk, if_neg hpk, ih]
        simp only [show (decide (p.1 = k)) = false by simp [hp], Bool.false_or]

theorem objFind_append_single (o : List (String × α)) (k : String) (v : α)
    (k' : String) :
    objFind (o ++ [(k, v)]) k' =
      match objFind o k' with
      | some w => some w
      | none => if k = k' then some v else none := by
  induction o with
  | nil => simp [objFind_cons, objFind_nil]
  | cons p o ih =>
    simp only [List.cons_append, objFind_cons, ih]
    by_cases hp : p.1 = k' <;> simp [hp]

theorem objFind_objInsert (o : List (String × α)) (k : String) (v : α)
    (k' : String) :
    objFind (objInsert o k v) k' = if k' = k then some v else objFind o k' := by
  unfold objInsert
  split
  · rename_i hmem
    rw [objFind_map_overwrite, hmem]
    by_cases hk : k' = k <;> simp [hk]
  · rename_i hmem
    have hany : o.any (fun p => p.1 = k) = false := by
      rw [Bool.not_eq_true] at hmem
      exact hmem
    rw [objFind_append_single]
    by_cases hk : k' = k
    · rw [hk, objFind_eq_none_of_not_any o k hany]
    · have hk2 : ¬ k = k' := fun h2 => hk h2.symm
      cases h : objFind o k' with
      | none => simp [h, hk, hk2]
      | some w => simp [h, hk]

theorem objSpread_cons (a : List (String × α)) (p : String × α)
    (r : List (String × α)) :
    objSpread a (p :: r) = objSpread (objInsert a p.1 p.2) r := rfl

theorem objFind_objSpread_not_mem (a r : List (String × α)) (k : String)
    (h : k ∉ objKeys r) :
    objFind (objSpread a r) k = objFind a k := by
  induction r generalizing a with
  | nil => rfl
  | cons p r ih =>
    simp only [objKeys, List.map_cons, List.mem_cons, not_or] at h
    rw [objSpread_cons, ih (objInsert a p.1 p.2) (by simpa [objKeys] using h.2),
      objFind_objInsert, if_neg h.1]

theorem objFind_objSpread_mem (a r : List (String × α)) (k : String)
    (hnd : (objKeys r).Nodup) (h : k ∈ objKeys r) :
    objFind (objSpread a r) k = objFind r k := by
  induction r generalizing a with
  | nil => simp [objKeys] at h
  | cons p r ih =>
    simp only [objKeys, List.map_cons, List.nodup_cons] at hnd
    simp only [objKeys, List.map_cons, List.mem_cons] at h
    rw [objSpread_cons]
    by_cases hk : k = p.1
    · rw [objFind_objSpread_not_mem _ _ _ (by rw [hk]; exact hnd.1),
        objFind_objInsert, if_pos hk, objFind_cons, if_pos hk.symm]
    · have hmem : k ∈ objKeys r := by
        rcases h with h | h
        · exact absurd h hk
        · exact h
      rw [ih _ hnd.2 hmem, objFind_cons, if_neg (fun hc => hk hc.symm)]

theorem length_le_objInsert (o : List (String × α)) (k : String) (v : α) :
    o.length ≤ (objInsert o k v).length := by
  unfold objInsert
  split <;> simp

theorem length_le_objSpread (a r : List (String × α)) :
    a.length ≤ (objSpread a r).length := by
  induction r generalizing a with
  | nil => exact Nat.le_refl _
  | cons p r ih =>
    simp only [objSpread, List.foldl_cons]
    exact Nat.le_trans (length_le_objInsert a p.1 p.2) (ih (objInsert a p.1 p.2))

theorem objSpread_ne_nil (a r : List (String × α)) (h : a ≠ []) :
    objSpread a r ≠ [] := by
  intro hc
  have h2 := length_le_objSpread a r
  rw [hc] at h2
  simp only [List.length_nil, Nat.le_zero] at h2
  exact h (List.length_eq_zero.mp h2)

/-! ### Lemmas about the section view of `handleDataGenerated` -/

theorem getSection_handleDataGenerated_ne (dt : DataType) (d : GenData α)
    (w : WorldData α) (sec : Section) (h : sectionOf dt ≠ sec) :
    getSection (handleDataGenerated dt d w) sec = getSection w sec := by
  cases dt <;> cases sec <;> first | rfl | exact absurd rfl h

theorem getSection_handleDataGenerated_congr (dt : DataType) (d : GenData α)
    (w w' : WorldData α) (sec : Section)
    (h : getSection w sec = getSection w' sec) :
    getSection (handleDataGenerated dt d w) sec =
      getSection (handleDataGenerated dt d w') sec := by
  cases dt <;> cases sec <;> simp_all [getSection, handleDataGenerated]

theorem getSection_applyOps_congr (ops : List (DataType × GenData α))
    (w w' : WorldData α) (sec : Section)
    (h : getSection w sec = getSection w' sec) :
    getSection (applyOps ops w) sec = getSection (applyOps ops w') sec := by
  induction ops generalizing w w' with
  | nil => exact h
  | cons op ops ih =>
    simp only [applyOps, List.foldl_cons]
    exact ih _ _ (getSection_handleDataGenerated_congr op.1 op.2 w w' sec h)

/-! ### Order-theoretic facts about `jsLe` -/

instance : IsTotal String jsLe := by
  constructor
  intro a b
  simp only [jsLe]
  generalize a.data = x
  generalize b.data = y
  induction x generalizing y with
  | nil => left; rfl
  | cons c cs ih =>
    cases y with
    | nil => right; rfl
    | cons d ds =>
      rcases Nat.lt_trichotomy c.toNat d.toNat with h | h | h
      · left; simp [lexLe, h]
      · rcases ih ds with h2 | h2
        · left
          simp [lexLe, Nat.not_lt.mpr (Nat.le_of_eq h.symm),
            Nat.not_lt.mpr (Nat.le_of_eq h), h2]
        · right
          simp [lexLe, Nat.not_lt.mpr (Nat.le_of_eq h.symm),
            Nat.not_lt.mpr (Nat.le_of_eq h), h2]
      · right; simp [lexLe, h]

instance : IsTrans String jsLe := by
  constructor
  intro a b c
  simp only [jsLe]
  generalize a.data = x
  generalize b.data = y
  generalize c.data = z
  induction x generalizing y z with
  | nil => intro _ _; rfl
  | cons p ps ih =>
    cases y with
    | nil => intro h _; exact absurd h (by simp [lexLe])
    | cons q qs =>
      cases z with
      | nil => intro _ h; exact absurd h (by simp [lexLe])
      | cons r rs =>
        intro h1 h2
        simp only [lexLe] at h1 h2 ⊢
        split at h1
        · rename_i hpq
          split at h2
          · rename_i hqr
            simp [Nat.lt_trans hpq hqr]
          · split at h2
            · exact absurd h2 (by simp)
            · rename_i h3 h4
              have hqr : q.toNat = r.toNat :=
                Nat.le_antisymm (Nat.not_lt.mp h4) (Nat.not_lt.mp h3)
              simp [hqr ▸ hpq]
        · split at h1
          · exact absurd h1 (by simp)
          · rename_i h3 h4
            have hpq : p.toNat = q.toNat :=
              Nat.le_antisymm (Nat.not_lt.mp h4) (Nat.not_lt.mp h3)
            split at h2
            · rename_i hqr
              simp [hpq ▸ hqr]
            · split at h2
              · exact absurd h2 (by simp)
              · rename_i h5 h6
                have hqr : q.toNat = r.toNat :=
                  Nat.le_antisymm (Nat.not_lt.mp h6) (Nat.not_lt.mp h5)
                rw [hpq, hqr]
                simp [ih qs rs h1 h2]

/-- A list with two distinct members has length at least two. -/
theorem two_le_length_of_mem_ne {l : List β} {a b : β} (ha : a ∈ l)
    (hb : b ∈ l) (hab : a ≠ b) : 2 ≤ l.length := by
  cases l with
  | nil => simp at ha
  | cons c t =>
    cases t with
    | nil =>
      simp only [List.mem_singleton] at ha hb
      exact absurd (ha.trans hb.symm) hab
    | cons d t =>
      show 2 ≤ t.length + 1 + 1
      omega

/-- A boolean non-emptiness test is the same as being a non-nil list. -/
theorem bnot_isEmpty_iff (l : List β) : (!l.isEmpty) = true ↔ l ≠ [] := by
  cases l <;> simp

/-! ## The claims -/

/-- C1: merging an object payload `r` into a keyed section upserts each
`(name, record)` pair of `r`: afterwards the section maps every name
occurring in `r` to exactly the record `r` gives for it (full overwrite
of any stored record for that name), and the stored record of every
name that is not a key of `r` is unchanged. -/
theorem mergeKeyed_upserts {α : Type} (s : KeyedSection)
    (r : List (String × α)) (w : WorldData α) (name : String)
    (hnd : (objKeys r).Nodup) :
    (name ∈ objKeys r →
      objFind (getKeyed (handleDataGenerated (keyedDataType s) (.obj r) w) s)
          name = objFind r name)
    ∧ (name ∉ objKeys r →
      objFind (getKeyed (handleDataGenerated (keyedDataType s) (.obj r) w) s)
          name = objFind (getKeyed w s) name) := by
  have hsec : getKeyed (handleDataGenerated (keyedDataType s) (.obj r) w) s =
      objSpread (getKeyed w s) r := by
    cases s <;> rfl
  rw [hsec]
  constructor
  · intro hmem
    exact objFind_objSpread_mem _ _ _ hnd hmem
  · intro hmem
    exact objFind_objSpread_not_mem _ _ _ hmem

/-- A world whose factions section already holds two named factions,
used to exercise the keyed upsert concretely. -/
def redHandWorld : WorldData String :=
  { initialWorldData with
      factions := [("Red Hand", "goal: conquest"), ("Elder Circle", "goal: peace")] }

/-- Witness for C1 at a concrete re-generation of the `Red Hand`
faction: the overwritten name carries the new record and the untouched
name keeps its old one. -/
theorem mergeKeyed_upserts_witness :
    (objKeys [("Red Hand", "goal: revenge")]).Nodup
    ∧ ("Red Hand" ∈ objKeys [("Red Hand", "goal: revenge")])
    ∧ ("Elder Circle" ∉ objKeys [("Red Hand", "goal: revenge")])
    ∧ objFind (getKeyed (handleDataGenerated (keyedDataType .factions)
          (.obj [("Red Hand", "goal: revenge")]) redHandWorld) .factions)
        "Red Hand" = objFind [("Red Hand", "goal: revenge")] "Red Hand"
    ∧ objFind (getKeyed (handleDataGenerated (keyedDataType .factions)
          (.obj [("Red Hand", "goal: revenge")]) redHandWorld) .factions)
        "Elder Circle" = objFind (getKeyed redHandWorld .factions) "Elder Circle" :=
  ⟨by decide, by decide, by decide,
    (mergeKeyed_upserts .factions [("Red Hand", "goal: revenge")] redHandWorld
      "Red Hand" (by decide)).1 (by decide),
    (mergeKeyed_upserts .factions [("Red Hand", "goal: revenge")] redHandWorld
      "Elder Circle" (by decide)).2 (by decide)⟩

/-- C2: merging mapping `X` and then mapping `Y` into a singleton
section leaves the section exactly equal to `Y` — each singleton merge
replaces the section in full, so no field of `X` survives unless it is
also a field of `Y`. -/
theorem mergeSingleton_replaces {α : Type} (s : SingletonSection)
    (X Y : List (String × α)) (w : WorldData α) :
    getSingleton (handleDataGenerated (singletonDataType s) (.obj Y)
        (handleDataGenerated (singletonDataType s) (.obj X) w)) s = .obj Y := by
  cases s <;> rfl

/-- Witness for C2 at two concrete culture regenerations. -/
theorem mergeSingleton_replaces_witness :
    getSingleton (handleDataGenerated (singletonDataType .culture)
        (.obj [("values", "revenge")])
        (handleDataGenerated (singletonDataType .culture)
          (.obj [("values", "honor"), ("rituals", "dawn chants")])
          (initialWorldData (α := String)))) .culture =
      .obj [("values", "revenge")] :=
  mergeSingleton_replaces .culture [("values", "honor"), ("rituals", "dawn chants")]
    [("values", "revenge")] initialWorldData

/-- C5: `interaction_result` merges prepend (most-recent-first) and
`chat_message` merges append (oldest-first): from any state, two
interaction merges `a` then `b` put `b, a` in front of the existing
entries, and two chat merges `a` then `b` put `a, b` behind them; from
the empty model the results are exactly `[b, a]` and `[a, b]`. -/
theorem ordered_sections_insertion_order {α : Type} (a b : GenData α)
    (w : WorldData α) :
    (handleDataGenerated .interaction_result b
        (handleDataGenerated .interaction_result a w)).interactions =
      b :: a :: w.interactions
    ∧ (handleDataGenerated .chat_message b
        (handleDataGenerated .chat_message a w)).chat_history =
      w.chat_history ++ [a, b]
    ∧ (handleDataGenerated .interaction_result b
        (handleDataGenerated .interaction_result a
          initialWorldData)).interactions = [b, a]
    ∧ (handleDataGenerated .chat_message b
        (handleDataGenerated .chat_message a
          initialWorldData)).chat_history = [a, b] := by
  refine ⟨rfl, ?_, rfl, rfl⟩
  simp [handleDataGenerated]

/-- Witness for C5 at two concrete records. -/
theorem ordered_sections_insertion_order_witness :
    (handleDataGenerated .interaction_result (.record "duel result")
        (handleDataGenerated .interaction_result (.record "trade result")
          (initialWorldData (α := String)))).interactions =
      [.record "duel result", .record "trade result"]
    ∧ (handleDataGenerated .chat_message (.record "first message")
        (handleDataGenerated .chat_message (.record "first message")
          (initialWorldData (α := String)))).chat_history =
      [.record "first message", .record "first message"] :=
  ⟨(ordered_sections_insertion_order (.record "trade result")
      (.record "duel result") initialWorldData).2.2.1,
    (ordered_sections_insertion_order (.record "first message")
      (.record "first message") initialWorldData).2.2.2⟩

/-- A world in which the same name is a key of two different keyed
sections. -/
def duplicateNameWorld : WorldData String :=
  { initialWorldData with
      factions := [("Gilded Hand", "a faction")]
      characters := [("Gilded Hand", "a character")] }

/-- Counterexample to C4 as stated: the views do NOT deduplicate the
derived name list — a name present in two keyed sections occurs twice
after the sentinel, not once. -/
theorem entityOptions_duplicate_names :
    entityOptions duplicateNameWorld = ["None", "Gilded Hand", "Gilded Hand"]
    ∧ (entityOptions duplicateNameWorld).count "Gilded Hand" = 2 := by
  constructor <;> decide

/-- C4 (amended): the derived option list is the sentinel `'None'`
followed by the `localeCompare`-ascending sort of the CONCATENATION of
the five keyed sections' key lists, duplicates retained — a name
present in n sections occurs n times. -/
theorem entityOptions_spec :
    ∀ (α : Type) (w : WorldData α),
      (entityOptions w).head? = some "None"
      ∧ List.Sorted jsLe (entityOptions w).tail
      ∧ (entityOptions w).tail.Perm (allNames w)
      ∧ ∀ name : String, (entityOptions w).tail.count name =
          (objKeys w.factions).count name + (objKeys w.characters).count name +
          (objKeys w.locations).count name + (objKeys w.artifacts).count name +
          (objKeys w.events).count name := by
  intro α w
  refine ⟨rfl, ?_, ?_, ?_⟩
  · exact List.sorted_insertionSort jsLe (allNames w)
  · exact List.perm_insertionSort jsLe (allNames w)
  · intro name
    rw [show (entityOptions w).tail = List.insertionSort jsLe (allNames w) from rfl,
      (List.perm_insertionSort jsLe (allNames w)).count_eq]
    simp only [allNames, List.count_append]

/-- Witness for C4 (amended) at the duplicate-name world. -/
theorem entityOptions_spec_witness :
    (entityOptions duplicateNameWorld).head? = some "None"
    ∧ (entityOptions duplicateNameWorld).tail.count "Gilded Hand" =
        (objKeys duplicateNameWorld.factions).count "Gilded Hand" +
        (objKeys duplicateNameWorld.characters).count "Gilded Hand" +
        (objKeys duplicateNameWorld.locations).count "Gilded Hand" +
        (objKeys duplicateNameWorld.artifacts).count "Gilded Hand" +
        (objKeys duplicateNameWorld.events).count "Gilded Hand" :=
  ⟨(entityOptions_spec String duplicateNameWorld).1,
    (entityOptions_spec String duplicateNameWorld).2.2.2 "Gilded Hand"⟩

/-- C6: a merge writes only its own section — every other section and
the capability pair are unchanged — and consequently, for any
interleaving of merges across sections, each section's final content is
the fold of only its own merges. -/
theorem merge_frame_and_fold :
    (∀ (α : Type) (dataType : DataType) (data : GenData α) (s : AppState α)
        (sec : Section), sec ≠ sectionOf dataType →
      getSection (appHandleDataGenerated dataType data s).worldData sec =
          getSection s.worldData sec
        ∧ (appHandleDataGenerated dataType data s).isLLMInitialized =
            s.isLLMInitialized
        ∧ (appHandleDataGenerated dataType data s).initializedProviderKey =
            s.initializedProviderKey)
    ∧ (∀ (α : Type) (ops : List (DataType × GenData α)) (w : WorldData α)
        (sec : Section),
      getSection (applyOps ops w) sec =
        getSection (applyOps
          (ops.filter (fun op => decide (sectionOf op.1 = sec))) w) sec) := by
  constructor
  · intro α dataType data s sec h
    exact ⟨getSection_handleDataGenerated_ne dataType data s.worldData sec
      (fun h2 => h h2.symm), rfl, rfl⟩
  · intro α ops w sec
    induction ops generalizing w with
    | nil => rfl
    | cons op ops ih =>
      by_cases h : sectionOf op.1 = sec
      · simp only [applyOps, List.foldl_cons, List.filter_cons]
        rw [if_pos (by simp [h])]
        exact ih (handleDataGenerated op.1 op.2 w)
      · simp only [applyOps, List.foldl_cons, List.filter_cons]
        rw [if_neg (by simp [h])]
        rw [show (ops.foldl (fun acc op => handleDataGenerated op.1 op.2 acc)
              (handleDataGenerated op.1 op.2 w)) =
            applyOps ops (handleDataGenerated op.1 op.2 w) from rfl,
          ih (handleDataGenerated op.1 op.2 w)]
        exact getSection_applyOps_congr _ _ _ _
          (getSection_handleDataGenerated_ne op.1 op.2 w sec h)

/-- Witness for C6: a concrete factions merge leaves the culture
section of the initial state unchanged. -/
theorem merge_frame_and_fold_witness :
    (Section.culture ≠ sectionOf DataType.factions)
    ∧ getSection (appHandleDataGenerated DataType.factions
          (.obj [("Red Hand", "goal: conquest")])
          (initialAppState (α := String))).worldData .culture =
        getSection (initialAppState (α := String)).worldData .culture :=
  ⟨by decide,
    (merge_frame_and_fold.1 String .factions (.obj [("Red Hand", "goal: conquest")])
      initialAppState .culture (by decide)).1⟩

/-- The initial world after one non-empty world-seed generation. -/
def seededWorld : WorldData String :=
  handleDataGenerated .physical_world (.obj [("terrain", "volcanic")])
    initialWorldData

/-- Counterexample to C7 as stated: a singleton section DOES regress
from populated to empty when a later merge carries an empty mapping,
because the singleton branch assigns the payload wholesale. -/
theorem singleton_empty_merge_regresses :
    (getSection seededWorld .physical_world).populated = true
    ∧ (getSection (handleDataGenerated .physical_world (.obj []) seededWorld)
        .physical_world).populated = false := by
  constructor <;> decide

/-- C7 (amended): keyed and ordered sections never regress from
populated to empty, and a populated singleton section stays populated
under any merge except a singleton merge into that same section whose
payload is not a non-empty mapping. -/
theorem populated_preservation :
    ∀ (α : Type) (dataType : DataType) (data : GenData α) (w : WorldData α)
      (sec : Section),
      (getSection w sec).populated = true →
      ((sec = .physical_world ∨ sec = .culture) → sectionOf dataType = sec →
        data.isNonEmptyObj = true) →
      (getSection (handleDataGenerated dataType data w) sec).populated = true := by
  intro α dataType data w sec hpop hsing
  by_cases h : sectionOf dataType = sec
  case neg =>
    rw [getSection_handleDataGenerated_ne dataType data w sec h]
    exact hpop
  case pos =>
    cases dataType <;> cases h
    case physical_world => exact hsing (Or.inl rfl) rfl
    case culture => exact hsing (Or.inr rfl) rfl
    case factions =>
      show (!(objSpread w.factions data.toSpread).isEmpty) = true
      exact (bnot_isEmpty_iff _).mpr
        (objSpread_ne_nil _ _ ((bnot_isEmpty_iff _).mp hpop))
    case characters =>
      show (!(objSpread w.characters data.toSpread).isEmpty) = true
      exact (bnot_isEmpty_iff _).mpr
        (objSpread_ne_nil _ _ ((bnot_isEmpty_iff _).mp hpop))
    case locations =>
      show (!(objSpread w.locations data.toSpread).isEmpty) = true
      exact (bnot_isEmpty_iff _).mpr
        (objSpread_ne_nil _ _ ((bnot_isEmpty_iff _).mp hpop))
    case artifacts =>
      show (!(objSpread w.artifacts data.toSpread).isEmpty) = true
      exact (bnot_isEmpty_iff _).mpr
        (objSpread_ne_nil _ _ ((bnot_isEmpty_iff _).mp hpop))
    case events =>
      show (!(objSpread w.events data.toSpread).isEmpty) = true
      exact (bnot_isEmpty_iff _).mpr
        (objSpread_ne_nil _ _ ((bnot_isEmpty_iff _).mp hpop))
    case interaction_result =>
      show (!(data :: w.interactions).isEmpty) = true
      simp
    case chat_message =>
      show (!(w.chat_history ++ [data]).isEmpty) = true
      simp

/-- Witness for C7 (amended): a populated factions section stays
populated across a concrete culture merge. -/
theorem populated_preservation_witness :
    (getSection redHandWorld Section.factions).populated = true
    ∧ (getSection (handleDataGenerated DataType.culture
        (.obj [("values", "honor")]) redHandWorld) .factions).populated = true :=
  ⟨by decide,
    populated_preservation String .culture (.obj [("values", "honor")])
      redHandWorld .factions (by decide) (by decide)⟩

/-- A world meeting all five simulate prerequisites in which only ONE
distinct entity name exists (the same name keys three sections). -/
def singleNameWorld : WorldData String :=
  { initialWorldData with
      physical_world := .obj [("terrain", "volcanic")]
      culture := .obj [("values", "honor")]
      factions := [("Solae", "a faction")]
      characters := [("Solae", "a character")]
      locations := [("Solae", "a location")] }

/-- Counterexample to C8 as stated: `prerequisitesMet` of the simulate
view is TRUE on a world with fewer than two distinct entity names — the
readiness predicate does not consult the name index. -/
theorem simulate_prerequisites_ignore_name_index :
    simulatePrerequisitesMet singleNameWorld = true
    ∧ (allNames singleNameWorld).dedup.length = 1 := by
  constructor <;> decide

/-- C8 (amended): the simulate readiness predicate checks exactly the
five sections; the two-distinct-names requirement is enforced by the
separate selection validation, so whenever a submission is accepted
with selections drawn from the derived names, the five sections are
non-empty, the selections differ, and at least two distinct names
exist. -/
theorem simulate_submit_requires_two_distinct :
    ∀ (α : Type) (isLLMInitialized : Bool) (w : WorldData α)
      (entity1Selection entity2Selection interactionType settingSelection : String),
      simulateSubmitAccepted isLLMInitialized w entity1Selection entity2Selection
          interactionType settingSelection = true →
      entity1Selection ∈ allNames w → entity2Selection ∈ allNames w →
      simulatePrerequisitesMet w = true
        ∧ entity1Selection ≠ entity2Selection
        ∧ 2 ≤ (allNames w).dedup.length := by
  intro α isInit w e1 e2 t st hacc h1 h2
  unfold simulateSubmitAccepted at hacc
  split at hacc
  · cases hacc
  · split at hacc
    · cases hacc
    · split at hacc
      · cases hacc
      · split at hacc
        · cases hacc
        · rename_i hinit hpre hnone hne
          refine ⟨by simpa using hpre, hne, ?_⟩
          exact two_le_length_of_mem_ne (List.mem_dedup.mpr h1)
            (List.mem_dedup.mpr h2) hne

/-- A world with two distinct entity names meeting the simulate
prerequisites. -/
def twoNameWorld : WorldData String :=
  { initialWorldData with
      physical_world := .obj [("terrain", "volcanic")]
      culture := .obj [("values", "honor")]
      factions := [("Ash Pact", "a faction")]
      characters := [("Brook", "a character")]
      locations := [("Ash Pact", "a location")] }

/-- Witness for C8 (amended) at a concrete accepted submission. -/
theorem simulate_submit_requires_two_distinct_witness :
    simulateSubmitAccepted true twoNameWorld "Ash Pact" "Brook"
        "Friendly Conversation" "City" = true
    ∧ ("Ash Pact" ∈ allNames twoNameWorld)
    ∧ ("Brook" ∈ allNames twoNameWorld)
    ∧ 2 ≤ (allNames twoNameWorld).dedup.length :=
  ⟨by decide, by decide, by decide,
    (simulate_submit_requires_two_distinct String true twoNameWorld "Ash Pact"
      "Brook" "Friendly Conversation" "City" (by decide) (by decide)
      (by decide)).2.2⟩

/-- C9: the culture readiness predicate is false on the empty model,
becomes true exactly when `physical_world` holds a non-empty mapping,
is a function of the world data alone (so independent of the
capability gate), and the view's submit guard is the conjunction of
the capability check, the readiness check and the non-blank-input
check. -/
theorem culture_readiness_spec :
    (∀ (α : Type), cultureWorldSeedGenerated (initialWorldData (α := α)) = false)
    ∧ (∀ (α : Type) (w : WorldData α) (X : List (String × α)), X ≠ [] →
        cultureWorldSeedGenerated
          (handleDataGenerated .physical_world (.obj X) w) = true)
    ∧ (∀ (α : Type) (w : WorldData α),
        cultureWorldSeedGenerated w = true ↔
          ∃ o : List (String × α), w.physical_world = .obj o ∧ o ≠ [])
    ∧ (∀ (α : Type) (s₁ s₂ : AppState α), s₁.worldData = s₂.worldData →
        cultureWorldSeedGenerated s₁.worldData =
          cultureWorldSeedGenerated s₂.worldData)
    ∧ (∀ (α : Type) (isLLMInitialized : Bool) (w : WorldData α)
        (societalStructure : String),
        cultureSubmitAccepted isLLMInitialized w societalStructure =
          (isLLMInitialized && cultureWorldSeedGenerated w &&
            !(jsTrim societalStructure = ""))) := by
  refine ⟨fun α => rfl, ?_, ?_, ?_, ?_⟩
  · intro α w X hX
    show (GenData.obj X).isNonEmptyObj = true
    cases X with
    | nil => exact absurd rfl hX
    | cons p X => rfl
  · intro α w
    cases hpw : w.physical_world with
    | obj o =>
      cases o with
      | nil =>
        simp [cultureWorldSeedGenerated, GenData.isNonEmptyObj, hpw]
      | cons p o =>
        simp [cultureWorldSeedGenerated, GenData.isNonEmptyObj, hpw]
    | record a =>
      simp [cultureWorldSeedGenerated, GenData.isNonEmptyObj, hpw]
  · intro α s₁ s₂ h
    rw [h]
  · intro α isInit w soc
    unfold cultureSubmitAccepted
    cases isInit with
    | false => simp
    | true =>
      cases hseed : cultureWorldSeedGenerated w with
      | false => simp [hseed]
      | true =>
        by_cases htrim : jsTrim soc = "" <;> simp [hseed, htrim]

/-- Witness for C9 at a concrete non-empty world-seed merge into the
empty model, with the capability gate still uninitialized in the
surrounding app state. -/
theorem culture_readiness_spec_witness :
    ([("terrain", "volcanic")] ≠ ([] : List (String × String)))
    ∧ cultureWorldSeedGenerated (handleDataGenerated .physical_world
        (.obj [("terrain", "volcanic")]) (initialWorldData (α := String))) = true :=
  ⟨by decide,
    culture_readiness_spec.2.1 String initialWorldData
      [("terrain", "volcanic")] (by decide)⟩

/-- C10: in every submission payload carrying an associated-entity
selector (characters' `faction`, locations' and artifacts'
`associated_entity`), the field is `null` exactly when the selected
option is the sentinel string `'None'`; consequently no payload ever
carries `'None'` itself as an associated entity — an entity literally
named `'None'` is indistinguishable from no selection. -/
theorem associated_entity_none_sentinel :
    (∀ n r e sel q,
      ((charactersInputData n r e sel q).faction = none ↔ sel = "None"))
    ∧ (∀ n r e sel q, (charactersInputData n r e sel q).faction ≠ some "None")
    ∧ (∀ n t f d sel,
      ((locationsInputData n t f d sel).associated_entity = none ↔ sel = "None"))
    ∧ (∀ n t f d sel,
      (locationsInputData n t f d sel).associated_entity ≠ some "None")
    ∧ (∀ n t p sel,
      ((artifactsInputData n t p sel).associated_entity = none ↔ sel = "None"))
    ∧ (∀ n t p sel,
      (artifactsInputData n t p sel).associated_entity ≠ some "None") := by
  refine ⟨?_, ?_, ?_, ?_, ?_, ?_⟩
  · intro n r e sel q
    by_cases h : sel = "None" <;> simp [charactersInputData, h]
  · intro n r e sel q
    by_cases h : sel = "None" <;> simp [charactersInputData, h]
  · intro n t f d sel
    by_cases h : sel = "None" <;> simp [locationsInputData, h]
  · intro n t f d sel
    by_cases h : sel = "None" <;> simp [locationsInputData, h]
  · intro n t p sel
    by_cases h : sel = "None" <;> simp [artifactsInputData, h]
  · intro n t p sel
    by_cases h : sel = "None" <;> simp [artifactsInputData, h]

/-- Witness for C10 at a concrete sentinel selection and a concrete
real selection. -/
theorem associated_entity_none_sentinel_witness :
    (charactersInputData "Ava" "scout" "northern clans" "None" "").faction = none
    ∧ (artifactsInputData "Ember Blade" "weapon" "burns" "Ava").associated_entity ≠
        some "None" :=
  ⟨(associated_entity_none_sentinel.1 "Ava" "scout" "northern clans" "None" "").mpr
      rfl,
    associated_entity_none_sentinel.2.2.2.2.2 "Ember Blade" "weapon" "burns" "Ava"⟩

/-- A world meeting the chat prerequisites, over `ChatMessage`-valued
records. -/
def chatReadyWorld : WorldData ChatMessage :=
  { initialWorldData with
      physical_world := .obj [("terrain", ⟨"system", "volcanic", "t0", false⟩)]
      culture := .obj [("values", ⟨"system", "honor", "t0", false⟩)] }

/-- Counterexample to C3 as stated: a rejected chat generation call
does NOT leave the store untouched — the chat view appends the user
message before the call and an error entry on rejection, so
`chat_history` grows by two entries. -/
theorem chat_failure_mutates_store :
    (chatHandleSubmit true chatReadyWorld "hello" "" (.rejected "network down")
        "t1").1 ≠ chatReadyWorld
    ∧ ((chatHandleSubmit true chatReadyWorld "hello" ""
        (.rejected "network down") "t1").1).chat_history.length = 2 := by
  constructor <;> decide

/-- C3 (amended): for every non-chat producer view a rejected
generation call leaves the world data untouched, with the failure
surfaced only in the view-local error; the chat view deliberately
appends the trimmed user message before the call and an error-flagged
AI entry on rejection, so a rejected chat call grows `chat_history` by
exactly those two entries while every other section is unchanged. -/
theorem failed_generation_store_effect :
    (∀ (α : Type) (dataType : DataType) (w : WorldData α) (m : String),
      tabHandleSubmit dataType w (.error m) = (w, some m))
    ∧ (∀ (w : WorldData ChatMessage) (msg prevError m now : String),
        jsTrim msg ≠ "" → chatPrerequisitesMet w = true →
        (chatHandleSubmit true w msg prevError (.rejected m) now).1.chat_history =
            w.chat_history ++
              [.record ⟨"user", jsTrim msg, now, false⟩,
               .record ⟨"ai",
                 "Error: " ++ (if m = "" then "An error occurred." else m),
                 now, true⟩]
          ∧ (chatHandleSubmit true w msg prevError (.rejected m) now).1.physical_world
              = w.physical_world
          ∧ (chatHandleSubmit true w msg prevError (.rejected m) now).1.culture
              = w.culture
          ∧ (chatHandleSubmit true w msg prevError (.rejected m) now).1.factions
              = w.factions
          ∧ (chatHandleSubmit true w msg prevError (.rejected m) now).1.characters
              = w.characters
          ∧ (chatHandleSubmit true w msg prevError (.rejected m) now).1.locations
              = w.locations
          ∧ (chatHandleSubmit true w msg prevError (.rejected m) now).1.artifacts
              = w.artifacts
          ∧ (chatHandleSubmit true w msg prevError (.rejected m) now).1.events
              = w.events
          ∧ (chatHandleSubmit true w msg prevError (.rejected m) now).1.interactions
              = w.interactions) := by
  constructor
  · intro α dataType w m
    rfl
  · intro w msg prevError m now htrim hpre
    unfold chatHandleSubmit
    rw [if_neg htrim]
    simp only [Bool.not_true, Bool.false_eq_true, if_false, hpre, if_neg]
    refine ⟨?_, rfl, rfl, rfl, rfl, rfl, rfl, rfl, rfl⟩
    simp [handleDataGenerated]

/-- Witness for C3 (amended) at a concrete rejected chat call. -/
theorem failed_generation_store_effect_witness :
    jsTrim "hello" ≠ ""
    ∧ chatPrerequisitesMet chatReadyWorld = true
    ∧ (chatHandleSubmit true chatReadyWorld "hello" "" (.rejected "boom")
        "t1").1.chat_history =
      chatReadyWorld.chat_history ++
        [.record ⟨"user", jsTrim "hello", "t1", false⟩,
         .record ⟨"ai",
           "Error: " ++ (if "boom" = "" then "An error occurred." else "boom"),
           "t1", true⟩] :=
  ⟨by decide, by decide,
    (failed_generation_store_effect.2 chatReadyWorld "hello" "" "boom" "t1"
      (by decide) (by decide)).1⟩

end WorldForge
